import Mathlib

/-!
Verification of the lambda-expressions demonstration program
(`src/source/main.cpp`) against its specification.

Modelling conventions:
* C++ `int` is modelled as `Int` (the program only manipulates small values;
  no arithmetic in it depends on fixed-width wraparound).
* Standard-output effects are modelled as a `List String`, one entry per
  `endl`-terminated line fragment emitted by a call.
* A callable of C++ signature `(int, int) -> int` that may print is modelled
  as `Int → Int → Int × List String` (result, output lines); a pure callable
  is lifted with `pureFn`.
* Block 3 of `main` (the capture-semantics demo) has mutable locals
  `larger`, `two`, `smaller`, `thing`; they form the state record
  `Block3State`.  A capture-by-value closure copies the field it captures at
  creation time; a capture-by-reference closure reads/writes the live state.
-/

/-- Lift of a pure `(int, int) -> int` callable into the effectful callable
type: it produces its result and prints nothing. -/
def pureFn (f : Int → Int → Int) : Int → Int → Int × List String :=
  fun a b => (f a b, [])

/-- The generic invoker `operation` (main.cpp lines 33–39):
`int result = func(a, b); cout << result << endl; return result;`.
The callable runs first (emitting its own output), then `operation`
prints the result on its own line. -/
def operation (a b : Int) (func : Int → Int → Int × List String) :
    Int × List String :=
  let result := (func a b).1
  (result, (func a b).2 ++ [toString result])

/-- The functor class `printFunctor` (main.cpp lines 46–53):
`cout << a << " " << b << endl; return 0;`. -/
def printFunctor (a b : Int) : Int × List String :=
  (0, [toString a ++ " " ++ toString b])

/-- The capture-free lambda `addition` (main.cpp lines 72–75):
`[](int a, int b) \x7b return a + b; \x7d`. -/
def addition (a b : Int) : Int :=
  a + b

/-- The immediately-invoked lambda (main.cpp line 92):
`[](int a, int b) \x7b return a > b ? a : b; \x7d (2, 3)`. -/
def larger : Int :=
  (fun a b => if a > b then a else b) 2 3

/-- The mutable locals of the third block of `main`
(lines 92–107): `larger`, `two`, `smaller`, `thing`. -/
structure Block3State where
  larger : Int
  two : Int
  smaller : Int
  thing : Int
deriving DecidableEq

/-- A one-argument closure living in block 3: given the live state and the
argument `b`, it produces the updated state, its `int` result, and its
output lines. -/
def Closure1 : Type :=
  Block3State → Int → Block3State × Int × List String

/-- The value-capturing lambda `lessThan2` (main.cpp line 97):
`[a = two](int b) \x7b return a < b ? a : b; \x7d`.  The capture clause
copies the current value of the local `two` into `a` at creation time;
the body never touches the live state and prints nothing. -/
def mkLessThan2 (creation : Block3State) : Closure1 :=
  let a := creation.two
  fun st b => (st, (if a < b then a else b), [])

/-- The reference-capturing lambda `setThing` (main.cpp line 105):
`[&a = thing](int b) \x7b a = b; \x7d`.  The capture clause binds `a` as a
reference to the live local `thing`, so invocation writes `b` into the
live state's `thing` field; the body returns nothing and prints nothing
(the surrounding `main` code does the printing).  The `void` return is
modelled by dropping the `Int` component of `Closure1`. -/
def setThing : Block3State → Int → Block3State × List String :=
  fun st b => ({ st with thing := b }, [])

/-- The lambda stored in the type-erased wrapper
`function<int(int, int)> multiply` (main.cpp line 121):
`[](int a, int b) \x7b return a * b; \x7d`. -/
def multiply (a b : Int) : Int :=
  a * b

/-- The vector `numbers` (main.cpp line 131):
`vector<int> numbers(\x7b 2, 5, 17, 99, 33, -6 \x7d)`. -/
def numbers : List Int :=
  [2, 5, 17, 99, 33, -6]

/-- The predicate lambda `greaterThan10` (main.cpp line 134):
`[](int other) \x7b return other > 10; \x7d`. -/
def greaterThan10 (other : Int) : Bool :=
  other > 10

/-- `std::count_if` over the whole sequence (main.cpp line 138): a linear
scan counting the elements on which the predicate holds. -/
def count_if (l : List Int) (p : Int → Bool) : Nat :=
  match l with
  | [] => 0
  | x :: xs => (if p x then 1 else 0) + count_if xs p

/-- The linear scan `count_if` agrees with `List.countP`. -/
theorem count_if_eq_countP (l : List Int) (p : Int → Bool) :
    count_if l p = l.countP p := by
  induction l with
  | nil => rfl
  | cons x xs ih =>
      simp [count_if, List.countP_cons, ih]
      by_cases h : p x = true <;> simp [h, Nat.add_comm]

/-- C1 counterexample: the predicate-count operation over the fixed sequence
does not return 2 — the sequence contains three elements greater than 10
(17, 99 and 33), not two. -/
theorem count_numbers_greaterThan10_ne_two :
    count_if numbers greaterThan10 ≠ 2 := by
  decide

/-- C1 (amended): the predicate-count operation applied to the fixed
sequence `\x7b2, 5, 17, 99, 33, -6\x7d` with the predicate `greaterThan10`
("element is greater than 10") returns exactly 3 (17, 99 and 33). -/
theorem count_numbers_greaterThan10_eq_three :
    count_if numbers greaterThan10 = 3 := by
  decide

/-- C2: for every pair of integers `a`, `b` and every callable `func`, the
generic invoker `operation a b func` returns exactly the result of
`func a b`, and its only output beyond that of `func` itself is that
result printed on its own line. -/
theorem operation_spec (a b : Int) (func : Int → Int → Int × List String) :
    (operation a b func).1 = (func a b).1 ∧
    (operation a b func).2 = (func a b).2 ++ [toString (func a b).1] := by
  constructor <;> rfl

/-- C3: the value-captured closure `lessThan2`, built from a state where the
local `two` equals 2, returns 2 when invoked with `b = 3`; and its result
for any argument is independent of the state at invocation time, so in
particular every later mutation of `two` leaves its results unchanged
(value-capture isolation). -/
theorem lessThan2_value_capture (creation : Block3State)
    (h : creation.two = 2) :
    (∀ st : Block3State, (mkLessThan2 creation st 3).2.1 = 2) ∧
    (∀ (st st' : Block3State) (b : Int),
      (mkLessThan2 creation st' b).2.1 = (mkLessThan2 creation st b).2.1) := by
  refine ⟨fun st => ?_, fun st st' b => rfl⟩
  simp [mkLessThan2, h]

/-- Witness for C3: the closure built from the concrete state at line 97
(`larger = 3`, `two = 2`, `smaller` and `thing` not yet set, modelled 0)
returns 2 on argument 3. -/
theorem lessThan2_value_capture_witness :
    (⟨3, 2, 0, 0⟩ : Block3State).two = 2 ∧
    (∀ st : Block3State, (mkLessThan2 ⟨3, 2, 0, 0⟩ st 3).2.1 = 2) ∧
    (∀ (st st' : Block3State) (b : Int),
      (mkLessThan2 ⟨3, 2, 0, 0⟩ st' b).2.1 =
        (mkLessThan2 ⟨3, 2, 0, 0⟩ st b).2.1) :=
  ⟨rfl, lessThan2_value_capture ⟨3, 2, 0, 0⟩ rfl⟩

/-- C4: invoking the reference-captured closure `setThing` with `b = 2`
makes the live variable `thing` equal 2 immediately afterward, from any
prior state (in the program `thing` starts indeterminate). -/
theorem setThing_sets_thing (st : Block3State) :
    ((setThing st 2).1).thing = 2 :=
  rfl

/-- C5: the functor's invocation operator prints its two inputs separated by
a space on one line and returns the constant 0 whatever its inputs; routed
through the generic invoker with `(2, 3)` it yields the output line
`"2 3"` followed by the line `"0"`. -/
theorem printFunctor_spec :
    (∀ a b : Int,
        printFunctor a b = (0, [toString a ++ " " ++ toString b])) ∧
    operation 2 3 printFunctor = (0, ["2 3", "0"]) := by
  refine ⟨fun a b => rfl, ?_⟩
  decide

/-- C6: the capture-free closure `addition` invoked directly with `(2, 3)`
returns 5 and prints nothing; routed through the generic invoker with
`(2, 3)` it produces exactly the output line `"5"`. -/
theorem addition_spec :
    addition 2 3 = 5 ∧
    (pureFn addition 2 3).2 = [] ∧
    operation 2 3 (pureFn addition) = (5, ["5"]) := by
  refine ⟨rfl, rfl, ?_⟩
  decide

/-- C7: the closure stored in the type-erased wrapper `multiply`, invoked
with `(2, 3)`, returns 6. -/
theorem multiply_two_three :
    multiply 2 3 = 6 := by
  decide

/-- C8: for every permutation of the multiset `\x7b2, 5, 17, 99, 33, -6\x7d`,
the predicate-count operation with `greaterThan10` yields the same result
as on the original sequence: counting is order-independent. -/
theorem count_if_perm_invariant (l : List Int) (h : l.Perm numbers) :
    count_if l greaterThan10 = count_if numbers greaterThan10 := by
  rw [count_if_eq_countP, count_if_eq_countP]
  exact h.countP_eq greaterThan10

/-- Witness for C8: the reversed sequence is a permutation of `numbers` and
the count over it equals the count over `numbers`. -/
theorem count_if_perm_invariant_witness :
    ([-6, 33, 99, 17, 5, 2] : List Int).Perm numbers ∧
    count_if [-6, 33, 99, 17, 5, 2] greaterThan10 =
      count_if numbers greaterThan10 :=
  ⟨by decide, count_if_perm_invariant [-6, 33, 99, 17, 5, 2] (by decide)⟩

/-- C9: for every pair of integers `a`, `b`, the closure stored in the
type-erased wrapper `multiply` returns exactly `a * b`. -/
theorem multiply_general (a b : Int) :
    multiply a b = a * b :=
  rfl

/-- C10: invoking the reference-captured closure `setThing` with any
argument changes only the `thing` field of the live state: `two`,
`larger` and `smaller` are unchanged, the call prints nothing, and any
previously built value-capturing `lessThan2` closure still returns the
same results afterwards. -/
theorem setThing_frame (st : Block3State) (b : Int) :
    ((setThing st b).1).two = st.two ∧
    ((setThing st b).1).larger = st.larger ∧
    ((setThing st b).1).smaller = st.smaller ∧
    (setThing st b).2 = [] ∧
    (∀ (creation : Block3State) (b' : Int),
      (mkLessThan2 creation (setThing st b).1 b').2.1 =
        (mkLessThan2 creation st b').2.1) := by
  exact ⟨rfl, rfl, rfl, rfl, fun creation b' => rfl⟩
